import Mathlib

/-!
Verification of the restock-listener Lambda
(`src/restock_lambda/restock_listener/app.py`).

The development shallowly embeds the Python module:

* Python strings are `List Char`; `str.lower()` is a characterwise
  `Char.toLower`; `ord` is `Char.toNat` (cast to `Int`, since Python
  integers in an event payload may be arbitrary integers).
* The event payload (a Python dict) is an association list
  `List (String × PyVal)` over a small universe `PyVal` of Python values.
* The two outbound collaborators (the Tweepy timeline fetch and the SNS
  publish call) and the `os.environ` lookup are modelled by a `LambdaEnv`
  record holding what each external operation would return (or the error
  it would raise); `lambda_handler` additionally returns the trace of
  external calls it performed, so that "no outbound call occurs" is a
  statement about the returned trace.
-/

/-- A Python value as it may appear in the Lambda event payload. -/
inductive PyVal where
  | str (s : List Char)
  | int (n : Int)
  | pylist (elems : List PyVal)
  | none

/-- A Python dict with string keys, as an association list. -/
abbrev PyDict := List (String × PyVal)

/-- Characterwise embedding of Python `str.lower()`. -/
def lowerChars (s : List Char) : List Char := s.map Char.toLower

/-- `set([ord(character) for character in tweet_text])`: the set of unique
code points of the characters of a tweet text (duplicates collapse). -/
def unicodeCharsIn (tweetText : List Char) : List Int :=
  (tweetText.map fun c => (c.toNat : Int)).dedup

/-- The per-tweet filter of `_get_matching_tweets`: the loop sets
`matching = False` (and breaks) as soon as one lowercased search term is
not a substring of the lowercased tweet text, or one required code point
is not in the tweet's code-point set; the tweet is kept iff `matching`
is still `True` afterwards, i.e. iff every term and every code point is
present. -/
def tweetMatches (tweetText : List Char)
    (searchTerms : List (List Char)) (specialUnicode : List Int) : Bool :=
  (searchTerms.all fun searchTerm =>
    decide (lowerChars searchTerm <:+: lowerChars tweetText)) &&
  (specialUnicode.all fun specialUnicodeChar =>
    decide (specialUnicodeChar ∈ unicodeCharsIn tweetText))

/-- The matching part of `_get_matching_tweets` (lines 72-92): walk the
fetched tweets in feed order and append the raw text of each tweet that
passes `tweetMatches`. -/
def findMatches (userTweets : List (List Char))
    (searchTerms : List (List Char)) (specialUnicode : List Int) :
    List (List Char) :=
  match userTweets with
  | [] => []
  | tweetText :: rest =>
    if tweetMatches tweetText searchTerms specialUnicode then
      tweetText :: findMatches rest searchTerms specialUnicode
    else
      findMatches rest searchTerms specialUnicode

/-- `"\n\n".join(matching_tweets)` (line 112). -/
def compose (matchingTweets : List (List Char)) : List Char :=
  List.intercalate [Char.ofNat 10, Char.ofNat 10] matchingTweets

/-- The failures `_verify_event_payload` can raise: the `ValueError`
naming a missing input (line 41), and the failed `assert` on the types of
`search_terms` / `special_unicode` (line 42). -/
inductive ValidationError where
  | missingInput (field : String)
  | assertionFailed
deriving DecidableEq

/-- The `required_inputs` list of `_verify_event_payload`, in source
order. -/
def requiredInputs : List String :=
  ["subject", "consumer_key", "consumer_secret", "access_token",
   "access_token_secret", "screen_name", "search_terms", "special_unicode"]

/-- `type(x) == list` on an optional dict entry. -/
def isPyList : Option PyVal → Bool
  | some (.pylist _) => true
  | _ => false

/-- The presence loop of `_verify_event_payload`: raise on the first
field of `fields` that is not a key of `event`. -/
def checkRequiredInputs (event : PyDict) :
    List String → Except ValidationError Unit
  | [] => Except.ok ()
  | field :: rest =>
    if (event.lookup field).isSome then checkRequiredInputs event rest
    else Except.error (.missingInput field)

/-- `_verify_event_payload`: presence checks in fixed order, then the
assertion that `search_terms` and `special_unicode` are lists. -/
def verifyEventPayload (event : PyDict) : Except ValidationError Unit :=
  match checkRequiredInputs event requiredInputs with
  | Except.error e => Except.error e
  | Except.ok _ =>
    if isPyList (event.lookup "search_terms") &&
       isPyList (event.lookup "special_unicode") then
      Except.ok ()
    else
      Except.error .assertionFailed

/-- An opaque error raised by an external collaborator. -/
abbrev ExtError := String

/-- What the external world would answer during one invocation:
the timeline fetch (which also covers Tweepy authentication failures,
since they surface on that call), the `sns_topic_arn` environment
variable, and the SNS publish call. -/
structure LambdaEnv where
  fetchResult : Except ExtError (List (List Char))
  snsTopicArn : Option (List Char)
  publishResult : Except ExtError PyDict

/-- One external call performed by the handler. -/
inductive EffectCall where
  | fetchTimeline (screenName : PyVal)
  | readTopicConfig
  | publishCall (topicArn : List Char) (message : List Char) (subject : PyVal)

/-- Errors `lambda_handler` can propagate. -/
inductive LambdaError where
  | validation (e : ValidationError)
  | fetch (e : ExtError)
  | matchingTypeError
  | configurationKeyError (key : String)
  | publish (e : ExtError)

/-- Read a string out of a Python value. -/
def asStr : PyVal → Option (List Char)
  | .str s => some s
  | _ => none

/-- Read an integer out of a Python value. -/
def asInt : PyVal → Option Int
  | .int n => some n
  | _ => none

/-- A dict entry read as a list of strings (the shape `search_terms`
must have for the matching loop to run without a type error). -/
def getStrList : Option PyVal → Option (List (List Char))
  | some (.pylist elems) => elems.mapM asStr
  | _ => none

/-- A dict entry read as a list of integers (the shape `special_unicode`
must have for the matching loop to run without a type error). -/
def getIntList : Option PyVal → Option (List Int)
  | some (.pylist elems) => elems.mapM asInt
  | _ => none

/-- `event[field]` for a field already known to be present. -/
def getFieldD (event : PyDict) (field : String) : PyVal :=
  (event.lookup field).getD .none

/-- `lambda_handler`: verify the payload, fetch the timeline, filter it,
and publish iff at least one tweet matched, reading the topic ARN from
the environment only on that path. Returns the result (the SNS response,
`{}`, or a propagated error) together with the trace of external calls
made. -/
def lambda_handler (event : PyDict) (env : LambdaEnv) :
    Except LambdaError PyDict × List EffectCall :=
  match verifyEventPayload event with
  | Except.error e => (Except.error (.validation e), [])
  | Except.ok _ =>
    match env.fetchResult with
    | Except.error e =>
      (Except.error (.fetch e), [.fetchTimeline (getFieldD event "screen_name")])
    | Except.ok userTweets =>
      match getStrList (event.lookup "search_terms"),
            getIntList (event.lookup "special_unicode") with
      | some searchTerms, some specialUnicode =>
        let matchingTweets := findMatches userTweets searchTerms specialUnicode
        let message := compose matchingTweets
        if matchingTweets.length > 0 then
          match env.snsTopicArn with
          | none =>
            (Except.error (.configurationKeyError "sns_topic_arn"),
             [.fetchTimeline (getFieldD event "screen_name"), .readTopicConfig])
          | some topicArn =>
            match env.publishResult with
            | Except.error e =>
              (Except.error (.publish e),
               [.fetchTimeline (getFieldD event "screen_name"), .readTopicConfig,
                .publishCall topicArn message (getFieldD event "subject")])
            | Except.ok response =>
              (Except.ok response,
               [.fetchTimeline (getFieldD event "screen_name"), .readTopicConfig,
                .publishCall topicArn message (getFieldD event "subject")])
        else
          (Except.ok [], [.fetchTimeline (getFieldD event "screen_name")])
      | _, _ =>
        (Except.error .matchingTypeError,
         [.fetchTimeline (getFieldD event "screen_name")])

/-! ### Helper lemmas -/

theorem findMatches_eq_filter (userTweets searchTerms : List (List Char))
    (specialUnicode : List Int) :
    findMatches userTweets searchTerms specialUnicode =
      userTweets.filter fun t => tweetMatches t searchTerms specialUnicode := by
  induction userTweets with
  | nil => rfl
  | cons t rest ih =>
    rw [findMatches, List.filter_cons]
    cases h : tweetMatches t searchTerms specialUnicode <;> simp [h, ih]

theorem tweetMatches_iff (tweetText : List Char)
    (searchTerms : List (List Char)) (specialUnicode : List Int) :
    tweetMatches tweetText searchTerms specialUnicode = true ↔
      ((∀ t ∈ searchTerms, lowerChars t <:+: lowerChars tweetText) ∧
       (∀ u ∈ specialUnicode,
          u ∈ tweetText.map fun c => ((c.toNat : Int)))) := by
  simp [tweetMatches, unicodeCharsIn, List.all_eq_true, List.mem_dedup]

theorem checkRequiredInputs_error (event : PyDict) :
    ∀ (fields : List String) (k : String),
      fields.find? (fun f => (event.lookup f).isNone) = some k →
      checkRequiredInputs event fields = Except.error (.missingInput k) := by
  intro fields
  induction fields with
  | nil => intro k h; simp [List.find?] at h
  | cons f rest ih =>
    intro k h
    by_cases hf : (event.lookup f).isNone = true
    · rw [@List.find?_cons_of_pos _ (fun g => (List.lookup g event).isNone) f rest hf] at h
      cases h
      rw [checkRequiredInputs]
      have : (event.lookup f).isSome = false := Option.not_isSome.mpr hf
      simp [this]
    · rw [@List.find?_cons_of_neg _ (fun g => (List.lookup g event).isNone) f rest hf] at h
      rw [checkRequiredInputs]
      have : (event.lookup f).isSome = true := by
        cases hs : (event.lookup f).isSome
        · exact absurd (Option.not_isSome.mp hs) hf
        · rfl
      simp [this, ih k h]

theorem checkRequiredInputs_ok (event : PyDict) :
    ∀ fields : List String,
      (∀ f ∈ fields, (event.lookup f).isSome = true) →
      checkRequiredInputs event fields = Except.ok () := by
  intro fields
  induction fields with
  | nil => intro _; rfl
  | cons f rest ih =>
    intro h
    rw [checkRequiredInputs]
    simp only [h f (by simp), if_true]
    exact ih fun g hg => h g (by simp [hg])

/-! ### Claims -/

/-- C1: `findMatches` returns exactly the raw (not re-cased) texts, in
feed order, of those posts for which every search term occurs
case-insensitively as a substring of the post text and every required
code point is among the code points of the post's characters; empty term
and code-point lists are trivially satisfied. -/
theorem findMatches_spec (posts searchTerms : List (List Char))
    (specialUnicode : List Int) :
    findMatches posts searchTerms specialUnicode =
      posts.filter fun p =>
        decide ((∀ t ∈ searchTerms, lowerChars t <:+: lowerChars p) ∧
                (∀ u ∈ specialUnicode,
                   u ∈ p.map fun c => ((c.toNat : Int)))) := by
  rw [findMatches_eq_filter]
  refine List.filter_congr ?_
  intro p _
  rw [Bool.eq_iff_iff, decide_eq_true_eq, tweetMatches_iff]

/-- C7: `compose` joins the matched texts with exactly two newline
characters between consecutive entries; zero matches compose to the
empty string, and `["a","b"]` composes to `"a\n\nb"`. -/
theorem compose_spec :
    compose [] = [] ∧
    (∀ x : List Char, compose [x] = x) ∧
    (∀ (x y : List Char) (rest : List (List Char)),
       compose (x :: y :: rest) =
         x ++ Char.ofNat 10 :: Char.ofNat 10 :: compose (y :: rest)) ∧
    compose [[Char.ofNat 97], [Char.ofNat 98]] =
      [Char.ofNat 97, Char.ofNat 10, Char.ofNat 10, Char.ofNat 98] := by
  refine ⟨rfl, ?_, ?_, by decide⟩
  · intro x
    simp [compose, List.intercalate]
  · intro x y rest
    simp [compose, List.intercalate, List.intersperse]

/-- C8: a post with empty text never matches once `searchTerms` holds at
least one non-empty term or `specialUnicode` holds at least one code
point. -/
theorem empty_text_never_matches
    (searchTerms : List (List Char)) (specialUnicode : List Int)
    (h : (∃ t ∈ searchTerms, t ≠ []) ∨ specialUnicode ≠ []) :
    tweetMatches [] searchTerms specialUnicode = false := by
  rw [← Bool.not_eq_true, tweetMatches_iff]
  rintro ⟨hterms, huni⟩
  rcases h with ⟨t, ht, hne⟩ | hne
  · have hinf := hterms t ht
    have hnil : lowerChars t = [] :=
      List.eq_nil_of_infix_nil (by simpa [lowerChars] using hinf)
    exact hne (by simpa [lowerChars] using hnil)
  · cases hu : specialUnicode with
    | nil => exact hne hu
    | cons u rest =>
      have := huni u (by simp [hu])
      simp at this

/-- Witness for C8 at `searchTerms = ["a"]`, `specialUnicode = []`. -/
theorem empty_text_never_matches_witness :
    tweetMatches [] [[Char.ofNat 97]] [] = false :=
  empty_text_never_matches [[Char.ofNat 97]] []
    (Or.inl ⟨[Char.ofNat 97], by simp, by simp⟩)

/-- C9: strengthening the criteria never adds matches: when the term
list and the code-point list only grow (as sets), the match result only
shrinks (as a subsequence); and every match result is a subsequence of
the input posts. -/
theorem findMatches_strengthen_sublist (posts : List (List Char))
    (T Tbig : List (List Char)) (U Ubig : List Int)
    (hT : ∀ t ∈ T, t ∈ Tbig) (hU : ∀ u ∈ U, u ∈ Ubig) :
    (findMatches posts Tbig Ubig).Sublist (findMatches posts T U) ∧
    (findMatches posts T U).Sublist posts := by
  constructor
  · rw [findMatches_eq_filter, findMatches_eq_filter]
    refine List.monotone_filter_right posts ?_
    intro p hp
    rw [tweetMatches_iff] at hp ⊢
    exact ⟨fun t ht => hp.1 t (hT t ht), fun u hu => hp.2 u (hU u hu)⟩
  · rw [findMatches_eq_filter]
    exact List.filter_sublist posts

/-- Witness for C9 at `posts = ["a"]`, `T = []`, `Tbig = ["a"]`,
`U = []`, `Ubig = [97]`. -/
theorem findMatches_strengthen_sublist_witness :
    ((findMatches [[Char.ofNat 97]] [[Char.ofNat 97]] [(97 : Int)]).Sublist
       (findMatches [[Char.ofNat 97]] [] [])) ∧
    (findMatches [[Char.ofNat 97]] [] []).Sublist [[Char.ofNat 97]] :=
  findMatches_strengthen_sublist [[Char.ofNat 97]] [] [[Char.ofNat 97]]
    [] [(97 : Int)] (by simp) (by simp)

/-- C10: an empty search term imposes no constraint: every post matches
`searchTerms = [""]` with empty `specialUnicode`, and the result on
`[""]` equals both the input posts and the result on an empty term
list. -/
theorem empty_search_term_trivial (posts : List (List Char)) :
    (∀ text : List Char, tweetMatches text [[]] [] = true) ∧
    findMatches posts [[]] [] = posts ∧
    findMatches posts [[]] [] = findMatches posts [] [] := by
  have htm : ∀ text : List Char, tweetMatches text [[]] [] = true := by
    intro text
    rw [tweetMatches_iff]
    exact ⟨by simp [lowerChars], by simp⟩
  have hid : findMatches posts [[]] [] = posts := by
    rw [findMatches_eq_filter]
    exact List.filter_eq_self.mpr fun p _ => htm p
  have hid2 : findMatches posts [] [] = posts := by
    rw [findMatches_eq_filter]
    refine List.filter_eq_self.mpr fun p _ => ?_
    rw [tweetMatches_iff]
    exact ⟨by simp, by simp⟩
  exact ⟨htm, hid, hid.trans hid2.symm⟩

/-- C2: for a request missing at least one required field,
`_verify_event_payload` raises the `ValueError` naming the first missing
field in the fixed source order, and `lambda_handler` propagates it
having performed no external call (empty call trace). The hypothesis
says precisely that `k` is the first field of `requiredInputs` absent
from the event. -/
theorem verify_first_missing_field (event : PyDict) (env : LambdaEnv)
    (k : String)
    (h : requiredInputs.find? (fun f => (event.lookup f).isNone) = some k) :
    verifyEventPayload event = Except.error (.missingInput k) ∧
    lambda_handler event env =
      (Except.error (.validation (.missingInput k)), []) := by
  have hc := checkRequiredInputs_error event requiredInputs k h
  refine ⟨?_, ?_⟩
  · rw [verifyEventPayload, hc]
  · rw [lambda_handler, verifyEventPayload, hc]

/-- A fully populated, well-shaped event payload. -/
def eventOK : PyDict :=
  [("subject", .str ['s']),
   ("consumer_key", .str ['k']),
   ("consumer_secret", .str ['c']),
   ("access_token", .str ['a']),
   ("access_token_secret", .str ['x']),
   ("screen_name", .str ['u']),
   ("search_terms", .pylist []),
   ("special_unicode", .pylist [])]

/-- An environment whose fetch succeeds with no tweets. -/
def envNoTweets : LambdaEnv :=
  ⟨Except.ok [], some ['t'], Except.ok [("MessageId", .str ['m'])]⟩

/-- Witness for C2 at the empty event: the first missing field is
`subject`. -/
theorem verify_first_missing_field_witness :
    verifyEventPayload [] = Except.error (.missingInput "subject") ∧
    lambda_handler [] envNoTweets =
      (Except.error (.validation (.missingInput "subject")), []) :=
  verify_first_missing_field [] envNoTweets "subject" (by decide)

/-- C3: for a request with all required fields present whose
`search_terms` or `special_unicode` entry is not a Python `list` (in
particular any scalar), `_verify_event_payload` fails with the assertion
error. -/
theorem verify_nonsequence_fails (event : PyDict)
    (hall : ∀ f ∈ requiredInputs, (event.lookup f).isSome = true)
    (hbad : isPyList (event.lookup "search_terms") = false ∨
            isPyList (event.lookup "special_unicode") = false) :
    verifyEventPayload event = Except.error .assertionFailed := by
  have hc := checkRequiredInputs_ok event requiredInputs hall
  rw [verifyEventPayload, hc]
  rcases hbad with h | h <;> simp [h]

/-- An event with all fields present but a scalar `search_terms`. -/
def eventScalarTerms : PyDict :=
  [("subject", .str ['s']),
   ("consumer_key", .str ['k']),
   ("consumer_secret", .str ['c']),
   ("access_token", .str ['a']),
   ("access_token_secret", .str ['x']),
   ("screen_name", .str ['u']),
   ("search_terms", .int 5),
   ("special_unicode", .pylist [])]

/-- Witness for C3 at an event whose `search_terms` is the scalar `5`. -/
theorem verify_nonsequence_fails_witness :
    verifyEventPayload eventScalarTerms = Except.error .assertionFailed :=
  verify_nonsequence_fails eventScalarTerms (by decide) (Or.inl (by decide))

/-- C4: for a valid request whose retrieved tweets yield no matches, the
handler performs no publish call and never reads the topic-ARN
configuration (its call trace is exactly the timeline fetch), and it
returns the empty mapping. -/
theorem handler_no_match_no_publish (event : PyDict) (env : LambdaEnv)
    (userTweets searchTerms : List (List Char)) (specialUnicode : List Int)
    (hv : verifyEventPayload event = Except.ok ())
    (hf : env.fetchResult = Except.ok userTweets)
    (ht : getStrList (event.lookup "search_terms") = some searchTerms)
    (hu : getIntList (event.lookup "special_unicode") = some specialUnicode)
    (hm : findMatches userTweets searchTerms specialUnicode = []) :
    lambda_handler event env =
      (Except.ok [], [.fetchTimeline (getFieldD event "screen_name")]) := by
  rw [lambda_handler, hv, hf, ht, hu]
  simp [hm]

/-- Witness for C4 at `eventOK` and `envNoTweets` (fetch returns no
tweets, so there is no match). -/
theorem handler_no_match_no_publish_witness :
    lambda_handler eventOK envNoTweets =
      (Except.ok [], [.fetchTimeline (getFieldD eventOK "screen_name")]) :=
  handler_no_match_no_publish eventOK envNoTweets [] [] []
    rfl rfl rfl rfl rfl

/-- C5: with the topic-ARN configuration absent, the handler fails with
the configuration lookup error exactly when the match sequence is
non-empty: the configuration is read only on the publish path, and a
missing topic ARN is harmless when nothing matched. -/
theorem handler_missing_topic_iff (event : PyDict) (env : LambdaEnv)
    (userTweets searchTerms : List (List Char)) (specialUnicode : List Int)
    (hv : verifyEventPayload event = Except.ok ())
    (hf : env.fetchResult = Except.ok userTweets)
    (ht : getStrList (event.lookup "search_terms") = some searchTerms)
    (hu : getIntList (event.lookup "special_unicode") = some specialUnicode)
    (harn : env.snsTopicArn = none) :
    (lambda_handler event env).1 =
        Except.error (.configurationKeyError "sns_topic_arn") ↔
      findMatches userTweets searchTerms specialUnicode ≠ [] := by
  rw [lambda_handler, hv, hf, ht, hu]
  by_cases hm : findMatches userTweets searchTerms specialUnicode = []
  · simp [hm]
  · simp [harn, List.length_pos, hm]

/-- An environment with one fetched tweet and no topic ARN. -/
def envNoArn : LambdaEnv :=
  ⟨Except.ok [['a']], none, Except.ok []⟩

/-- Witness for C5 at `eventOK` and `envNoArn`: the single tweet matches
the empty criteria, so the missing topic ARN is fatal. -/
theorem handler_missing_topic_iff_witness :
    (lambda_handler eventOK envNoArn).1 =
      Except.error (.configurationKeyError "sns_topic_arn") :=
  (handler_missing_topic_iff eventOK envNoArn [['a']] [] []
      rfl rfl rfl rfl rfl).mpr (by decide)

/-- C6: every invocation either returns the publish acknowledgment
unmodified, returns the empty mapping, or propagates the underlying
failure unmodified: the validation error, the fetch (or authentication)
error, the missing-configuration error, the publish error, or the type
error raised inside matching when a criteria field has ill-typed
elements. No error is converted to a default value. -/
theorem handler_outcome_cases (event : PyDict) (env : LambdaEnv) :
    (∃ m, (lambda_handler event env).1 = Except.ok m ∧
          env.publishResult = Except.ok m) ∨
    ((lambda_handler event env).1 = Except.ok []) ∨
    (∃ e, (lambda_handler event env).1 = Except.error (.validation e) ∧
          verifyEventPayload event = Except.error e) ∨
    (∃ e, (lambda_handler event env).1 = Except.error (.fetch e) ∧
          env.fetchResult = Except.error e) ∨
    ((lambda_handler event env).1 =
        Except.error (.configurationKeyError "sns_topic_arn") ∧
     env.snsTopicArn = none) ∨
    (∃ e, (lambda_handler event env).1 = Except.error (.publish e) ∧
          env.publishResult = Except.error e) ∨
    ((lambda_handler event env).1 = Except.error .matchingTypeError) := by
  cases hv : verifyEventPayload event with
  | error e =>
    refine Or.inr (Or.inr (Or.inl ⟨e, ?_, rfl⟩))
    rw [lambda_handler, hv]
  | ok u =>
    cases u
    cases hf : env.fetchResult with
    | error e =>
      refine Or.inr (Or.inr (Or.inr (Or.inl ⟨e, ?_, rfl⟩)))
      rw [lambda_handler, hv, hf]
    | ok userTweets =>
      cases ht : getStrList (event.lookup "search_terms") with
      | none =>
        refine Or.inr (Or.inr (Or.inr (Or.inr (Or.inr (Or.inr ?_)))))
        rw [lambda_handler, hv, hf, ht]
      | some searchTerms =>
        cases hu : getIntList (event.lookup "special_unicode") with
        | none =>
          refine Or.inr (Or.inr (Or.inr (Or.inr (Or.inr (Or.inr ?_)))))
          rw [lambda_handler, hv, hf, ht, hu]
        | some specialUnicode =>
          by_cases hm : findMatches userTweets searchTerms specialUnicode = []
          · refine Or.inr (Or.inl ?_)
            rw [lambda_handler, hv, hf, ht, hu]
            simp [hm]
          · cases harn : env.snsTopicArn with
            | none =>
              refine Or.inr (Or.inr (Or.inr (Or.inr (Or.inl ⟨?_, rfl⟩))))
              rw [lambda_handler, hv, hf, ht, hu]
              simp [harn, List.length_pos, hm]
            | some topicArn =>
              cases hp : env.publishResult with
              | error e =>
                refine Or.inr (Or.inr (Or.inr (Or.inr (Or.inr (Or.inl
                  ⟨e, ?_, rfl⟩)))))
                rw [lambda_handler, hv, hf, ht, hu]
                simp [harn, hp, List.length_pos, hm]
              | ok response =>
                refine Or.inl ⟨response, ?_, rfl⟩
                rw [lambda_handler, hv, hf, ht, hu]
                simp [harn, hp, List.length_pos, hm]
